import Mathlib

/-!
Verification of the event daemon of pz-obs-overlay (src/event_daemon.py) against
its natural-language specification.

The embedding models JSON values as an inductive type, the two validator
functions of EventValidator as Lean functions translated line by line from the
Python source, the file-tailing poll of EventDaemon.watch_events as a pure
function from file content and byte offset to the new offset plus the list of
broadcast payloads, EventDaemon.broadcast as a function over a client list with
a per-client send-failure oracle, and the screen-position trigger branch of
watch_events (crop, screenshot deletion, sprite-sheet generation, notification
broadcast, mailbox truncation) as a fold over parsed trigger records with the
external collaborators (json.loads, ImageProcessor.crop_screenshot,
ImageProcessor.generate_sprite_sheet_dalle) taken as function parameters.
-/

/-- JSON values as produced by json.loads. The float constructor carries an
Int payload only as an index: the validator inspects nothing but the
constructor tag (Python isinstance checks), so no float arithmetic is
modelled. -/
inductive JValue where
  | null : JValue
  | bool : Bool → JValue
  | int : Int → JValue
  | float : Int → JValue
  | str : String → JValue
  | arr : List JValue → JValue
  | obj : List (String × JValue) → JValue

/-- Python isinstance(v, (int, float)). In Python, bool is a subclass of int,
so a boolean satisfies this check as well. -/
def isNum : JValue → Bool
  | .bool _ => true
  | .int _ => true
  | .float _ => true
  | _ => false

/-- Python isinstance(v, float). A Python int or bool is not a float. -/
def isFloat : JValue → Bool
  | .float _ => true
  | _ => false

/-- Python isinstance(v, dict). -/
def isDict : JValue → Bool
  | .obj _ => true
  | _ => false

/-- Python membership test, key in dict, on the field list of an object. -/
def hasKey (fs : List (String × JValue)) (k : String) : Bool :=
  (List.lookup k fs).isSome

/-- Python subscript dict[k], defaulted to null; only ever used under a hasKey
guard, mirroring the guarded accesses in the source. -/
def jget (fs : List (String × JValue)) (k : String) : JValue :=
  (List.lookup k fs).getD JValue.null

/-- Python dict.values() on an object; empty on non-objects (only ever used
under an isDict guard in the pure validator). -/
def pyValues : JValue → List JValue
  | .obj fs => fs.map (fun kv => kv.2)
  | _ => []

/-- EventValidator.validate_player_stats (src/event_daemon.py lines 71-92):
check stats is a dict; for the fields health (float), position (dict),
moodles (dict) in order, fail if absent or of the wrong type; then check that
every value of position and of moodles is int or float. -/
def validate_player_stats (stats : JValue) : Bool :=
  match stats with
  | .obj fs =>
    if !(hasKey fs "health" && isFloat (jget fs "health")) then false
    else if !(hasKey fs "position" && isDict (jget fs "position")) then false
    else if !(hasKey fs "moodles" && isDict (jget fs "moodles")) then false
    else if !((pyValues (jget fs "position")).all isNum) then false
    else if !((pyValues (jget fs "moodles")).all isNum) then false
    else true
  | _ => false

/-- EventValidator.validate_event (src/event_daemon.py lines 94-120):
reject non-dicts and dicts without a type key; require a numeric timestamp;
then dispatch on the value of type: attack and hit require the keys itemName,
itemType, hit; xp_gain requires perk, amount, level; player_update requires a
player field passing validate_player_stats; any other type value passes. -/
def validate_event (event : JValue) : Bool :=
  match event with
  | .obj fs =>
    if !(hasKey fs "type") then false
    else if !(hasKey fs "timestamp" && isNum (jget fs "timestamp")) then false
    else
      match jget fs "type" with
      | .str s =>
        if s = "attack" || s = "hit" then
          ["itemName", "itemType", "hit"].all (fun k => hasKey fs k)
        else if s = "xp_gain" then
          ["perk", "amount", "level"].all (fun k => hasKey fs k)
        else if s = "player_update" then
          hasKey fs "player" && validate_player_stats (jget fs "player")
        else true
      | _ => true
  | _ => false

/-- Claim-side predicate for the nested player record, following the words of
the spec and claim C1: numeric health, and position and moodles mappings whose
every value is numeric. -/
def numericMapping (v : JValue) : Bool :=
  match v with
  | .obj fs => fs.all (fun kv => isNum kv.2)
  | _ => false

/-- Claim C1 as written: player record with numeric health. -/
def playerOkNum (p : JValue) : Bool :=
  match p with
  | .obj ps =>
    hasKey ps "health" && isNum (jget ps "health")
      && numericMapping (jget ps "position") && numericMapping (jget ps "moodles")
  | _ => false

/-- Amended claim C1: player record whose health is specifically a float, as
the source requires via isinstance(stats[health], float). -/
def playerOkFloat (p : JValue) : Bool :=
  match p with
  | .obj ps =>
    hasKey ps "health" && isFloat (jget ps "health")
      && numericMapping (jget ps "position") && numericMapping (jget ps "moodles")
  | _ => false

/-- Required-field set of the event type, following claim C1 word for word,
parameterized by the player-record predicate. -/
def requiredFieldsOk (playerOk : JValue → Bool) (fs : List (String × JValue)) : Bool :=
  match jget fs "type" with
  | .str s =>
    if s = "attack" || s = "hit" then
      hasKey fs "itemName" && hasKey fs "itemType" && hasKey fs "hit"
    else if s = "xp_gain" then
      hasKey fs "perk" && hasKey fs "amount" && hasKey fs "level"
    else if s = "player_update" then
      hasKey fs "player" && playerOk (jget fs "player")
    else true
  | _ => true

/-- Claim C1 as written: a mapping with a type, a numeric timestamp, and the
required-field set of its type, with numeric health in the player record. -/
def claimValid (e : JValue) : Bool :=
  match e with
  | .obj fs =>
    hasKey fs "type" && hasKey fs "timestamp" && isNum (jget fs "timestamp")
      && requiredFieldsOk playerOkNum fs
  | _ => false

/-- Claim C1 amended: identical to claimValid except that the health field of
the player record must be a float, not merely numeric. -/
def claimValidFloat (e : JValue) : Bool :=
  match e with
  | .obj fs =>
    hasKey fs "type" && hasKey fs "timestamp" && isNum (jget fs "timestamp")
      && requiredFieldsOk playerOkFloat fs
  | _ => false

/-- The player_update event whose player has an integer health 100: json of
the object with type player_update, timestamp 0, player having health 100 and
empty position and moodles mappings. -/
def intHealthEvent : JValue :=
  .obj [("type", .str "player_update"), ("timestamp", .int 0),
        ("player", .obj [("health", .int 100),
                         ("position", .obj []), ("moodles", .obj [])])]


/-- Python subscript v[k] with its failure modes: KeyError on a missing key,
TypeError on subscripting a non-dict. Used by the exception-tracking version
of the validator. -/
def dictGetE (v : JValue) (k : String) : Except String JValue :=
  match v with
  | .obj fs =>
    match List.lookup k fs with
    | some w => .ok w
    | none => .error "KeyError"
  | _ => .error "TypeError"

/-- Python v.values() with its failure mode on non-dicts. -/
def pyValuesE (v : JValue) : Except String (List JValue) :=
  match v with
  | .obj fs => .ok (fs.map (fun kv => kv.2))
  | _ => .error "AttributeError"

/-- Exception-tracking translation of EventValidator.validate_player_stats:
every Python subscript and values() call goes through dictGetE and pyValuesE
so that a potential exception surfaces as an error value. The control flow
follows the source: each required field is tested for presence before being
subscripted (short-circuit of the or in the source), and the values of
position and moodles are re-read from the dict as in the source. -/
def validate_player_statsE (stats : JValue) : Except String Bool :=
  match stats with
  | .obj fs =>
    if !(hasKey fs "health") then .ok false
    else
      match dictGetE (.obj fs) "health" with
      | .error e => .error e
      | .ok h =>
        if !(isFloat h) then .ok false
        else if !(hasKey fs "position") then .ok false
        else
          match dictGetE (.obj fs) "position" with
          | .error e => .error e
          | .ok pv =>
            if !(isDict pv) then .ok false
            else if !(hasKey fs "moodles") then .ok false
            else
              match dictGetE (.obj fs) "moodles" with
              | .error e => .error e
              | .ok mv =>
                if !(isDict mv) then .ok false
                else
                  match dictGetE (.obj fs) "position" with
                  | .error e => .error e
                  | .ok pv2 =>
                    match pyValuesE pv2 with
                    | .error e => .error e
                    | .ok pvs =>
                      if !(pvs.all isNum) then .ok false
                      else
                        match dictGetE (.obj fs) "moodles" with
                        | .error e => .error e
                        | .ok mv2 =>
                          match pyValuesE mv2 with
                          | .error e => .error e
                          | .ok mvs =>
                            if !(mvs.all isNum) then .ok false
                            else .ok true
  | _ => .ok false

/-- Exception-tracking translation of EventValidator.validate_event with the
same dictGetE discipline; non-dict inputs return false at once because the
isinstance test short-circuits the membership test in the source. -/
def validate_eventE (event : JValue) : Except String Bool :=
  match event with
  | .obj fs =>
    if !(hasKey fs "type") then .ok false
    else
      match dictGetE (.obj fs) "type" with
      | .error e => .error e
      | .ok t =>
        if !(hasKey fs "timestamp") then .ok false
        else
          match dictGetE (.obj fs) "timestamp" with
          | .error e => .error e
          | .ok ts =>
            if !(isNum ts) then .ok false
            else
              match t with
              | .str s =>
                if s = "attack" || s = "hit" then
                  .ok (["itemName", "itemType", "hit"].all (fun k => hasKey fs k))
                else if s = "xp_gain" then
                  .ok (["perk", "amount", "level"].all (fun k => hasKey fs k))
                else if s = "player_update" then
                  if !(hasKey fs "player") then .ok false
                  else
                    match dictGetE (.obj fs) "player" with
                    | .error e => .error e
                    | .ok p => validate_player_statsE p
                else .ok true
              | _ => .ok true
  | _ => .ok false


/-- Splitting file content into lines at the newline character, mirroring
readlines followed by the per-line strip in the source (separators dropped
here; the strip in processLine removes them there). -/
def splitLinesAux : List Char → List Char → List (List Char)
  | [], cur => [cur.reverse]
  | c :: rest, cur =>
    if c = '\n' then cur.reverse :: splitLinesAux rest []
    else splitLinesAux rest (c :: cur)

/-- File content as a character list split into lines. -/
def splitLines (cs : List Char) : List (List Char) :=
  splitLinesAux cs []

/-- Python str.strip with no arguments: remove leading and trailing
whitespace. -/
def pstrip (cs : List Char) : List Char :=
  ((cs.dropWhile Char.isWhitespace).reverse.dropWhile Char.isWhitespace).reverse

/-- The body of the per-line loop of EventDaemon.watch_events
(src/event_daemon.py lines 195-219): strip the line, skip it if empty, parse
it with json.loads (modelled by the parse parameter; a parse failure is the
none case, matching the caught JSONDecodeError), drop it if validation fails,
and otherwise broadcast the stripped line text. Returns the payload this line
contributes, if any. -/
def processLine (parse : List Char → Option JValue) (line : List Char) :
    Option (List Char) :=
  let l := pstrip line
  if l.isEmpty then none
  else
    match parse l with
    | none => none
    | some event => if validate_event event then some l else none

/-- All payloads broadcast for a batch of newly read lines, in order. -/
def processLines (parse : List Char → Option JValue) (lines : List (List Char)) :
    List (List Char) :=
  lines.filterMap (processLine parse)

/-- One poll of the event file by EventDaemon.watch_events (src/event_daemon.py
lines 186-221): read the current size; only when it exceeds last_position,
seek there, read the new lines, process each, and set last_position to the
size read before processing. Returns the new offset and the broadcast
payloads. -/
def pollEvents (parse : List Char → Option JValue) (content : List Char)
    (pos : Nat) : Nat × List (List Char) :=
  if content.length > pos then
    (content.length, processLines parse (splitLines (content.drop pos)))
  else (pos, [])

/-- Mutable state of EventDaemon relevant to the tailers, from __init__
(src/event_daemon.py lines 127-137): last_position and last_screen_pos both
start at 0. -/
structure DState where
  lastPosition : Nat
  lastScreenPos : Nat

/-- EventDaemon.__init__ sets last_position = 0 and last_screen_pos = 0. -/
def DState.initial : DState := ⟨0, 0⟩

/-- The serialized notification produced by json.dumps on the dict with type
sprite_sheet_updated and path overlay/assets/sprite_sheet.png
(src/event_daemon.py lines 264-267). -/
def notifMsg : List Char :=
  String.toList
    "\x7b\"type\": \"sprite_sheet_updated\", \"path\": \"overlay/assets/sprite_sheet.png\"\x7d"

/-- Accumulator of the per-record loop in the screen-position branch of
watch_events: whether the screenshot artifact still exists, the payloads
broadcast so far, and for auditing, the arguments of every crop_screenshot
and generate_sprite_sheet_dalle invocation. -/
structure TrigAcc where
  screenshot : Bool
  msgs : List (List Char)
  cropCalls : List JValue
  genCalls : List (List Char)

/-- The body of the per-record loop of the screen-position branch
(src/event_daemon.py lines 232-271): strip and skip empty lines, parse the
record (JSONDecodeError skips it), and if the screenshot artifact exists,
invoke crop_screenshot (modelled by the crop parameter; its None return is
the caught failure); on crop success delete the screenshot, invoke
generate_sprite_sheet_dalle (the gen parameter) on the cropped path, and on
generation success broadcast the sprite_sheet_updated notification. -/
def processTriggerLine (parse : List Char → Option JValue)
    (crop : JValue → Option (List Char)) (gen : List Char → Bool)
    (acc : TrigAcc) (line : List Char) : TrigAcc :=
  let l := pstrip line
  if l.isEmpty then acc
  else
    match parse l with
    | none => acc
    | some screenPos =>
      if acc.screenshot then
        match crop screenPos with
        | some croppedPath =>
          let acc2 : TrigAcc :=
            { screenshot := false, msgs := acc.msgs,
              cropCalls := acc.cropCalls ++ [screenPos],
              genCalls := acc.genCalls ++ [croppedPath] }
          if gen croppedPath then { acc2 with msgs := acc2.msgs ++ [notifMsg] }
          else acc2
        | none => { acc with cropCalls := acc.cropCalls ++ [screenPos] }
      else acc

/-- Result of one poll of the screen-position trigger file. -/
structure TriggerResult where
  content : List Char
  lastScreenPos : Nat
  screenshot : Bool
  msgs : List (List Char)
  cropCalls : List JValue
  genCalls : List (List Char)

/-- One poll of the screen-position file by watch_events (src/event_daemon.py
lines 223-276): only when the file exists and its size exceeds
last_screen_pos, read the new lines, run the per-record loop, then truncate
the file to empty and reset last_screen_pos to 0. -/
def pollTrigger (parse : List Char → Option JValue)
    (crop : JValue → Option (List Char)) (gen : List Char → Bool)
    (fileThere : Bool) (content : List Char) (pos : Nat) (shot : Bool) :
    TriggerResult :=
  if fileThere && decide (content.length > pos) then
    let acc := (splitLines (content.drop pos)).foldl
      (processTriggerLine parse crop gen) ⟨shot, [], [], []⟩
    ⟨[], 0, acc.screenshot, acc.msgs, acc.cropCalls, acc.genCalls⟩
  else ⟨content, pos, shot, [], [], []⟩

/-- The file-system facts one cycle of watch_events observes. -/
structure World where
  eventsContent : List Char
  triggerThere : Bool
  triggerContent : List Char
  screenshot : Bool

/-- Result of one full cycle of the watch_events loop. -/
structure StepResult where
  state : DState
  world : World
  msgs : List (List Char)

/-- One full cycle of the watch_events loop (src/event_daemon.py lines
184-281): poll the event file, then poll the screen-position trigger file;
the broadcast payloads of the cycle are the event payloads followed by the
notification payloads. -/
def stepDaemon (parse : List Char → Option JValue)
    (crop : JValue → Option (List Char)) (gen : List Char → Bool)
    (w : World) (s : DState) : StepResult :=
  let ev := pollEvents parse w.eventsContent s.lastPosition
  let tr := pollTrigger parse crop gen w.triggerThere w.triggerContent
    s.lastScreenPos w.screenshot
  ⟨⟨ev.1, tr.lastScreenPos⟩,
   ⟨w.eventsContent, w.triggerThere, tr.content, tr.screenshot⟩,
   ev.2 ++ tr.msgs⟩

/-- The send loop of EventDaemon.broadcast (src/event_daemon.py lines
160-165): iterate over the clients in order, attempting to send the message
to each; a client whose send raises ConnectionClosed (the sendFails oracle)
is collected, the others receive the message. Returns the collected
disconnected clients and the deliveries in iteration order. -/
def sendAll {κ : Type} (sendFails : κ → Bool) (msg : List Char) :
    List κ → List κ × List (κ × List Char)
  | [] => ([], [])
  | c :: rest =>
    let r := sendAll sendFails msg rest
    if sendFails c then (c :: r.1, r.2) else (r.1, (c, msg) :: r.2)

/-- EventDaemon.broadcast (src/event_daemon.py lines 155-170): return at once
on an empty registry; otherwise run the send loop over every client and only
then remove the collected disconnected clients from the registry. Returns
the new registry and the deliveries. -/
def broadcast {κ : Type} [DecidableEq κ] (sendFails : κ → Bool)
    (clients : List κ) (msg : List Char) : List κ × List (κ × List Char) :=
  if clients.isEmpty then (clients, [])
  else
    let r := sendAll sendFails msg clients
    (clients.filter (fun c => decide (c ∉ r.1)), r.2)

/-- The xp_gain event line of end-to-end scenario 1 of the spec. -/
def xpLine : List Char :=
  String.toList
    "\x7b\"type\": \"xp_gain\", \"timestamp\": 1, \"perk\": \"Strength\", \"amount\": 5, \"level\": 3\x7d"

/-- The value json.loads produces for xpLine. -/
def xpEvent : JValue :=
  .obj [("type", .str "xp_gain"), ("timestamp", .int 1), ("perk", .str "Strength"),
        ("amount", .int 5), ("level", .int 3)]

/-- A concrete stand-in for json.loads defined on the single line xpLine. -/
def parseXp : List Char → Option JValue :=
  fun l => if l = xpLine then some xpEvent else none

/-- A parse function on which every line fails, as json.loads does on
non-JSON text. -/
def parseNone : List Char → Option JValue := fun _ => none

/-- The trigger record of end-to-end scenario 3 of the spec. -/
def trigLine : List Char := String.toList "\x7b\"x\": 100, \"y\": 200\x7d"

/-- The value json.loads produces for trigLine. -/
def trigPos : JValue := .obj [("x", .int 100), ("y", .int 200)]

/-- A concrete stand-in for json.loads defined on the single record
trigLine. -/
def parseTrig : List Char → Option JValue :=
  fun l => if l = trigLine then some trigPos else none

/-- A concrete cropped-image path as returned by crop_screenshot. -/
def facePath : List Char := String.toList "face_captures/face_1.png"

/-- A crop collaborator that succeeds with facePath. -/
def cropSome : JValue → Option (List Char) := fun _ => some facePath

/-- A crop collaborator that always fails. -/
def cropNone : JValue → Option (List Char) := fun _ => none

/-- A generation collaborator that succeeds. -/
def genTrue : List Char → Bool := fun _ => true

/-- A generation collaborator that fails. -/
def genFalse : List Char → Bool := fun _ => false

/-- A concrete broadcast payload. -/
def wMsg : List Char := String.toList "payload"

/-- A send oracle under which exactly client 1 fails. -/
def wFails : Nat → Bool := fun c => decide (c = 1)

/-- Mapping all over the second components commutes with all on values. -/
lemma all_map_snd (fs : List (String × JValue)) :
    (fs.map (fun kv => kv.2)).all isNum = fs.all (fun kv => isNum kv.2) := by
  induction fs with
  | nil => rfl
  | cons h t ih => simp [ih]

lemma numericMapping_eq (v : JValue) :
    numericMapping v = (isDict v && (pyValues v).all isNum) := by
  cases v <;> simp [numericMapping, isDict, pyValues, all_map_snd]

/-- A key that is absent reads as null through jget. -/
lemma jget_of_not_hasKey (fs : List (String × JValue)) (k : String)
    (h : hasKey fs k = false) : jget fs k = JValue.null := by
  unfold hasKey at h
  unfold jget
  cases hl : List.lookup k fs with
  | none => rfl
  | some v => rw [hl] at h; simp at h

/-- The nested player check of the source coincides with the claim-side
player predicate with float health. -/
lemma validate_player_stats_eq (p : JValue) :
    validate_player_stats p = playerOkFloat p := by
  cases p <;> try rfl
  rename_i fs
  simp only [validate_player_stats, playerOkFloat, numericMapping_eq]
  cases h1 : hasKey fs "health"
  · simp
  cases h2 : isFloat (jget fs "health")
  · simp
  cases h3 : hasKey fs "position"
  · rw [jget_of_not_hasKey fs "position" h3]; simp [isDict]
  cases h4 : isDict (jget fs "position")
  · simp
  cases h5 : hasKey fs "moodles"
  · rw [jget_of_not_hasKey fs "moodles" h5]; simp [isDict]
  cases h6 : isDict (jget fs "moodles")
  · simp
  cases h7 : (pyValues (jget fs "position")).all isNum <;>
    cases h8 : (pyValues (jget fs "moodles")).all isNum <;> simp

/-- The source validator coincides with the claim-side predicate amended to
demand a float health. -/
lemma validate_event_eq_claimValidFloat (e : JValue) :
    validate_event e = claimValidFloat e := by
  cases e <;> try rfl
  rename_i fs
  simp only [validate_event, claimValidFloat, requiredFieldsOk]
  cases h1 : hasKey fs "type"
  · simp
  cases h2 : hasKey fs "timestamp"
  · simp
  cases h3 : isNum (jget fs "timestamp")
  · simp
  cases ht : jget fs "type" <;> try simp
  rename_i s
  rw [validate_player_stats_eq]
  by_cases hs1 : s = "attack" <;> by_cases hs2 : s = "hit" <;>
    by_cases hs3 : s = "xp_gain" <;> by_cases hs4 : s = "player_update" <;>
      simp [hs1, hs2, hs3, hs4, Bool.and_assoc]

lemma dictGetE_ok (fs : List (String × JValue)) (k : String)
    (h : hasKey fs k = true) : dictGetE (.obj fs) k = .ok (jget fs k) := by
  unfold hasKey at h
  cases hl : List.lookup k fs with
  | none => rw [hl] at h; simp at h
  | some v => simp [dictGetE, jget, hl]

/-- The exception-tracking player validator never raises and agrees with the
pure translation. -/
lemma validate_player_statsE_ok (stats : JValue) :
    validate_player_statsE stats = .ok (validate_player_stats stats) := by
  cases stats <;> try rfl
  rename_i fs
  simp only [validate_player_statsE, validate_player_stats]
  cases h1 : hasKey fs "health"
  · simp
  rw [dictGetE_ok fs "health" h1]
  dsimp only
  cases h2 : isFloat (jget fs "health")
  · simp
  cases h3 : hasKey fs "position"
  · simp
  rw [dictGetE_ok fs "position" h3]
  dsimp only
  cases h4 : isDict (jget fs "position")
  · simp
  cases h5 : hasKey fs "moodles"
  · simp
  rw [dictGetE_ok fs "moodles" h5]
  dsimp only
  cases h6 : isDict (jget fs "moodles")
  · simp
  have hpv : pyValuesE (jget fs "position") = .ok (pyValues (jget fs "position")) := by
    cases hp : jget fs "position" <;> rw [hp] at h4 <;> simp [isDict] at h4 <;> rfl
  have hmv : pyValuesE (jget fs "moodles") = .ok (pyValues (jget fs "moodles")) := by
    cases hm : jget fs "moodles" <;> rw [hm] at h6 <;> simp [isDict] at h6 <;> rfl
  rw [hpv, hmv]
  dsimp only
  cases h7 : (pyValues (jget fs "position")).all isNum <;>
    cases h8 : (pyValues (jget fs "moodles")).all isNum <;> simp

/-- The exception-tracking event validator never raises and agrees with the
pure translation: EventValidator.validate_event is total and returns a
boolean on every input. -/
lemma validate_eventE_ok (event : JValue) :
    validate_eventE event = .ok (validate_event event) := by
  cases event <;> try rfl
  rename_i fs
  simp only [validate_eventE, validate_event]
  cases h1 : hasKey fs "type"
  · simp
  rw [dictGetE_ok fs "type" h1]
  dsimp only
  cases h2 : hasKey fs "timestamp"
  · simp
  rw [dictGetE_ok fs "timestamp" h2]
  dsimp only
  cases h3 : isNum (jget fs "timestamp")
  · simp
  cases ht : jget fs "type" <;> try rfl
  rename_i s
  by_cases hs1 : s = "attack" ∨ s = "hit"
  · simp [hs1]
  by_cases hs2 : s = "xp_gain"
  · simp [hs1, hs2]
  by_cases hs3 : s = "player_update"
  · simp only [hs1, hs2, hs3, if_true, if_false]
    cases h4 : hasKey fs "player"
    · simp
    rw [dictGetE_ok fs "player" h4]
    dsimp only
    simp [validate_player_statsE_ok, h4]
  · simp [hs1, hs2, hs3]

/-- A line that produces a payload contributes a line that parses to a
validated event: the payload is the stripped line and its parse passed
validate_event. -/
lemma processLine_some (parse : List Char → Option JValue) (line m : List Char)
    (h : processLine parse line = some m) :
    ∃ ev, parse m = some ev ∧ validate_event ev = true := by
  unfold processLine at h
  by_cases h1 : (pstrip line).isEmpty
  · simp [h1] at h
  · simp only [h1, if_false, Bool.false_eq_true] at h
    cases hp : parse (pstrip line) with
    | none => rw [hp] at h; simp at h
    | some ev =>
      rw [hp] at h
      dsimp only at h
      cases hv : validate_event ev with
      | false => rw [hv] at h; simp at h
      | true =>
        rw [hv] at h
        simp only [if_true] at h
        refine ⟨ev, ?_, hv⟩
        cases h
        exact hp

/-- Payload lists distribute over appended batches of lines. -/
lemma processLines_append (parse : List Char → Option JValue)
    (xs ys : List (List Char)) :
    processLines parse (xs ++ ys) = processLines parse xs ++ processLines parse ys := by
  unfold processLines
  exact List.filterMap_append xs ys (processLine parse)

/-- A line that fails (empty, unparseable, or invalid) contributes nothing
to the payload list, and the rest of the batch is unaffected. -/
lemma processLines_skip (parse : List Char → Option JValue)
    (pre post : List (List Char)) (bad : List Char)
    (h : processLine parse bad = none) :
    processLines parse (pre ++ bad :: post) =
      processLines parse pre ++ processLines parse post := by
  rw [processLines_append]
  unfold processLines
  rw [List.filterMap_cons_none h]

/-- The per-record trigger loop leaves an accumulator without a screenshot
unchanged: no crop, no generation, no broadcast. -/
lemma processTriggerLine_noShot (parse : List Char → Option JValue)
    (crop : JValue → Option (List Char)) (gen : List Char → Bool)
    (m : List (List Char)) (cc : List JValue) (gc : List (List Char))
    (line : List Char) :
    processTriggerLine parse crop gen ⟨false, m, cc, gc⟩ line = ⟨false, m, cc, gc⟩ := by
  unfold processTriggerLine
  by_cases h1 : (pstrip line).isEmpty
  · simp [h1]
  · simp only [h1, if_false, Bool.false_eq_true]
    cases hp : parse (pstrip line) <;> simp

/-- Folding the trigger loop from a screenshot-free accumulator is the
identity. -/
lemma trigFold_noShot (parse : List Char → Option JValue)
    (crop : JValue → Option (List Char)) (gen : List Char → Bool)
    (m : List (List Char)) (cc : List JValue) (gc : List (List Char)) :
    ∀ lines : List (List Char),
      lines.foldl (processTriggerLine parse crop gen) ⟨false, m, cc, gc⟩ =
        ⟨false, m, cc, gc⟩ := by
  intro lines
  induction lines with
  | nil => rfl
  | cons l ls ih => rw [List.foldl_cons, processTriggerLine_noShot]; exact ih

/-- One trigger record either leaves the payloads unchanged or appends the
single sprite_sheet_updated notification. -/
lemma processTriggerLine_msgs (parse : List Char → Option JValue)
    (crop : JValue → Option (List Char)) (gen : List Char → Bool)
    (acc : TrigAcc) (line : List Char) :
    (processTriggerLine parse crop gen acc line).msgs = acc.msgs ∨
      (processTriggerLine parse crop gen acc line).msgs = acc.msgs ++ [notifMsg] := by
  unfold processTriggerLine
  by_cases h1 : (pstrip line).isEmpty
  · simp [h1]
  · simp only [h1, if_false, Bool.false_eq_true]
    cases hp : parse (pstrip line) with
    | none => left; rfl
    | some sp =>
      cases hs : acc.screenshot <;> simp only
      · left; rfl
      · cases hc : crop sp with
        | none => left; rfl
        | some cp =>
          cases hg : gen cp <;> simp [hg]

/-- Every payload produced by the trigger loop either was already in the
accumulator or is the notification. -/
lemma trigFold_msgs (parse : List Char → Option JValue)
    (crop : JValue → Option (List Char)) (gen : List Char → Bool) :
    ∀ (lines : List (List Char)) (acc : TrigAcc) (m : List Char),
      m ∈ (lines.foldl (processTriggerLine parse crop gen) acc).msgs →
        m ∈ acc.msgs ∨ m = notifMsg := by
  intro lines
  induction lines with
  | nil => intro acc m hm; exact Or.inl hm
  | cons l ls ih =>
    intro acc m hm
    rw [List.foldl_cons] at hm
    rcases ih (processTriggerLine parse crop gen acc l) m hm with h | h
    · rcases processTriggerLine_msgs parse crop gen acc l with he | he
      · rw [he] at h; exact Or.inl h
      · rw [he] at h
        rcases List.mem_append.mp h with h2 | h2
        · exact Or.inl h2
        · right; simpa using h2
    · exact Or.inr h

/-- Every payload of a trigger poll is the notification. -/
lemma pollTrigger_msgs (parse : List Char → Option JValue)
    (crop : JValue → Option (List Char)) (gen : List Char → Bool)
    (fileThere : Bool) (content : List Char) (pos : Nat) (shot : Bool)
    (m : List Char)
    (hm : m ∈ (pollTrigger parse crop gen fileThere content pos shot).msgs) :
    m = notifMsg := by
  unfold pollTrigger at hm
  by_cases hc : fileThere && decide (content.length > pos)
  · simp only [hc, if_true] at hm
    rcases trigFold_msgs parse crop gen _ _ _ hm with h | h
    · simp at h
    · exact h
  · simp only [hc, if_false, Bool.false_eq_true] at hm
    simp at hm

/-- The disconnected set collected by the send loop is exactly the set of
clients whose send fails. -/
lemma sendAll_fst {κ : Type} (f : κ → Bool) (msg : List Char) :
    ∀ cs : List κ, (sendAll f msg cs).1 = cs.filter f := by
  intro cs
  induction cs with
  | nil => rfl
  | cons c r ih =>
    unfold sendAll
    cases hfc : f c <;> simp [hfc, ih, List.filter_cons]

/-- Every client whose send does not fail receives the message. -/
lemma sendAll_deliver {κ : Type} (f : κ → Bool) (msg : List Char) :
    ∀ cs : List κ, ∀ c ∈ cs, f c = false → (c, msg) ∈ (sendAll f msg cs).2 := by
  intro cs
  induction cs with
  | nil => intro c hc; simp at hc
  | cons a r ih =>
    intro c hc hf
    rcases List.mem_cons.mp hc with rfl | hr
    · unfold sendAll; rw [hf]; simp
    · unfold sendAll
      cases hfa : f a <;> simp only [if_true, if_false, Bool.false_eq_true]
      · exact List.mem_cons_of_mem _ (ih c hr hf)
      · exact ih c hr hf

/-- Every delivery of the send loop carries the exact message, to a client
of the snapshot whose send did not fail. -/
lemma sendAll_deliver_inv {κ : Type} (f : κ → Bool) (msg : List Char) :
    ∀ cs : List κ, ∀ c m, (c, m) ∈ (sendAll f msg cs).2 →
      m = msg ∧ c ∈ cs ∧ f c = false := by
  intro cs
  induction cs with
  | nil => intro c m hm; simp [sendAll] at hm
  | cons a r ih =>
    intro c m hm
    unfold sendAll at hm
    cases hfa : f a
    · rw [hfa] at hm
      simp only [if_false, Bool.false_eq_true] at hm
      rcases List.mem_cons.mp hm with he | hr
      · have h1 : c = a := congrArg Prod.fst he
        have h2 : m = msg := congrArg Prod.snd he
        subst h1; subst h2
        exact ⟨rfl, List.mem_cons_self _ _, hfa⟩
      · obtain ⟨h1, h2, h3⟩ := ih c m hr
        exact ⟨h1, List.mem_cons_of_mem _ h2, h3⟩
    · rw [hfa] at hm
      simp only [if_true] at hm
      obtain ⟨h1, h2, h3⟩ := ih c m hm
      exact ⟨h1, List.mem_cons_of_mem _ h2, h3⟩

/-- Claim C1, counterexample: the claim as written fails on the code. The
player_update event whose player carries the integer health 100 satisfies the
claim (integer health is numeric) yet validate_event returns false, because
the source requires isinstance(stats[health], float) and a Python int is not
a float. -/
theorem C1_counterexample :
    claimValid intHealthEvent = true ∧ validate_event intHealthEvent = false :=
  ⟨by decide, by decide⟩

/-- Claim C1, amended: for every event value e, validate(e) returns true if
and only if e is a mapping containing a numeric timestamp and the
required-field set of its type; for player_update the nested player mapping
must carry a float health (an integer health is rejected) together with
position and moodles mappings whose every value is numeric; an unrecognized
type passes on the common fields alone. -/
theorem C1_theorem (e : JValue) :
    validate_event e = true ↔ claimValidFloat e = true := by
  rw [validate_event_eq_claimValidFloat]

/-- Claim C3, counterexample: with the tailer offset at 5 and the file
truncated to the 3-byte content abc, the poll neither resets the offset to 0
nor recomputes it to the new end of file 3: it leaves the offset at 5 and
reads nothing, because watch_events only compares current_size >
last_position and has no truncation branch. -/
theorem C3_counterexample :
    pollEvents parseNone (String.toList "abc") 5 = (5, []) ∧
    (String.toList "abc").length < 5 ∧ (5 : Nat) ≠ 0 ∧
    (5 : Nat) ≠ (String.toList "abc").length :=
  ⟨by decide, by decide, by decide, by decide⟩

/-- Claim C3, amended: when a poll observes the file size strictly below the
held offset N, the tailer performs no reset at all: the offset stays N, no
bytes are read and nothing is broadcast, until the file again grows past N. -/
theorem C3_theorem (parse : List Char → Option JValue) (c : List Char)
    (pos : Nat) (h : c.length < pos) :
    pollEvents parse c pos = (pos, []) := by
  have hn : ¬ c.length > pos := by omega
  unfold pollEvents
  rw [if_neg hn]

/-- Witness for the amended claim C3 at a concrete truncated file. -/
theorem C3_witness :
    (String.toList "ab").length < 7 ∧
    pollEvents parseNone (String.toList "ab") 7 = (7, []) :=
  ⟨by decide, C3_theorem parseNone (String.toList "ab") 7 (by decide)⟩

/-- Claim C4, counterexample: the daemon starts with last_position = 0, and
on the first poll of an existing file holding one valid line that line is
read from offset 0 and broadcast, so lines already present at startup are
replayed, not skipped. -/
theorem C4_counterexample :
    DState.initial.lastPosition = 0 ∧
    (pollEvents parseXp xpLine DState.initial.lastPosition).2 = [xpLine] :=
  ⟨rfl, by decide⟩

/-- Claim C4, amended: on the first observation of an existing event-log
file the tailer starts at offset 0, not at end of file: the first poll of a
nonempty file reads the whole content from its start and broadcasts every
valid line already present (replay-history semantics). -/
theorem C4_theorem (parse : List Char → Option JValue) (c : List Char)
    (h : 0 < c.length) :
    DState.initial.lastPosition = 0 ∧
    pollEvents parse c DState.initial.lastPosition =
      (c.length, processLines parse (splitLines c)) := by
  refine ⟨rfl, ?_⟩
  show pollEvents parse c 0 = _
  unfold pollEvents
  rw [if_pos h, List.drop_zero]

/-- Witness for the amended claim C4 at a concrete pre-existing line. -/
theorem C4_witness :
    0 < xpLine.length ∧
    (DState.initial.lastPosition = 0 ∧
     pollEvents parseXp xpLine DState.initial.lastPosition =
       (xpLine.length, processLines parseXp (splitLines xpLine))) :=
  ⟨by decide, C4_theorem parseXp xpLine (by decide)⟩

/-- Claim C6: per-record isolation in a batch. After any poll that observes
growth the offset equals the size read at batch start, regardless of line
failures, and a line on which processing fails (empty, unparseable JSON, or
failed validation) drops out without affecting the payloads of the lines
before or after it in the same batch; since the offset reaches the batch
end, the failed line is never read again. -/
theorem C6_theorem :
    (∀ (parse : List Char → Option JValue) (c : List Char) (pos : Nat),
      pos < c.length → (pollEvents parse c pos).1 = c.length) ∧
    (∀ (parse : List Char → Option JValue) (pre post : List (List Char))
      (bad : List Char), processLine parse bad = none →
      processLines parse (pre ++ bad :: post) =
        processLines parse pre ++ processLines parse post) := by
  constructor
  · intro parse c pos h
    unfold pollEvents
    rw [if_pos h]
  · exact processLines_skip

/-- Witness for claim C6: a batch with an unparseable middle line. -/
theorem C6_witness :
    (pollEvents parseXp xpLine 0).1 = xpLine.length ∧
    processLines parseXp ([xpLine] ++ (String.toList "junk") :: [xpLine]) =
      processLines parseXp [xpLine] ++ processLines parseXp [xpLine] :=
  ⟨C6_theorem.1 parseXp xpLine 0 (by decide),
   C6_theorem.2 parseXp [xpLine] [xpLine] (String.toList "junk") (by decide)⟩

/-- Claim C7: tailer idempotence. When the file has not grown past the held
offset, a poll reads nothing and leaves the offset unchanged, and so does a
second poll right after it. -/
theorem C7_theorem (parse : List Char → Option JValue) (c : List Char)
    (pos : Nat) (h : c.length ≤ pos) :
    pollEvents parse c pos = (pos, []) ∧
    pollEvents parse c (pollEvents parse c pos).1 = (pos, []) := by
  have hn : ¬ c.length > pos := by omega
  have h1 : pollEvents parse c pos = (pos, []) := by
    unfold pollEvents
    rw [if_neg hn]
  refine ⟨h1, ?_⟩
  rw [h1]
  exact h1

/-- Witness for claim C7 at a concrete caught-up state. -/
theorem C7_witness :
    (String.toList "ab").length ≤ 5 ∧
    (pollEvents parseNone (String.toList "ab") 5 = (5, []) ∧
     pollEvents parseNone (String.toList "ab")
       (pollEvents parseNone (String.toList "ab") 5).1 = (5, [])) :=
  ⟨by decide, C7_theorem parseNone (String.toList "ab") 5 (by decide)⟩

/-- The payload list of a broadcast is the payload list of its send loop. -/
lemma broadcast_snd {κ : Type} [DecidableEq κ] (f : κ → Bool) (msg : List Char)
    (cs : List κ) : (broadcast f cs msg).2 = (sendAll f msg cs).2 := by
  cases cs with
  | nil => rfl
  | cons a r => rfl

/-- After a broadcast the registry holds exactly the clients whose send did
not fail. -/
lemma broadcast_fst {κ : Type} [DecidableEq κ] (f : κ → Bool) (msg : List Char)
    (cs : List κ) : (broadcast f cs msg).1 = cs.filter (fun c => !(f c)) := by
  cases cs with
  | nil => rfl
  | cons a r =>
    show (a :: r).filter (fun c => decide (c ∉ (sendAll f msg (a :: r)).1)) =
      (a :: r).filter (fun c => !(f c))
    rw [sendAll_fst]
    apply List.filter_congr
    intro c hc
    cases hfc : f c with
    | true =>
      have hmem : c ∈ (a :: r).filter f := List.mem_filter.mpr ⟨hc, hfc⟩
      simp [hmem]
    | false =>
      have hmem : c ∉ (a :: r).filter f := by
        intro hm
        have := (List.mem_filter.mp hm).2
        rw [hfc] at this
        exact Bool.false_ne_true this
      simp [hmem]

/-- Claim C5: broadcast fan-out. Every client of the snapshot whose send does
not fail receives the exact payload; every delivery goes to a snapshot member
with the exact payload; clients whose send fails are removed only after the
full pass, leaving exactly the non-failing clients registered; and broadcast
on an empty registry is a no-op. -/
theorem C5_theorem {κ : Type} [DecidableEq κ] (f : κ → Bool) (clients : List κ)
    (msg : List Char) :
    (∀ c ∈ clients, f c = false → (c, msg) ∈ (broadcast f clients msg).2) ∧
    (∀ c m, (c, m) ∈ (broadcast f clients msg).2 →
      m = msg ∧ c ∈ clients ∧ f c = false) ∧
    (broadcast f clients msg).1 = clients.filter (fun c => !(f c)) ∧
    broadcast f ([] : List κ) msg = ([], []) := by
  refine ⟨?_, ?_, broadcast_fst f msg clients, rfl⟩
  · intro c hc hf
    rw [broadcast_snd]
    exact sendAll_deliver f msg clients c hc hf
  · intro c m hm
    rw [broadcast_snd] at hm
    exact sendAll_deliver_inv f msg clients c m hm

/-- Witness for claim C5: three clients of which exactly client 1 fails; the
other two still receive the payload. -/
theorem C5_witness :
    ((0, wMsg) ∈ (broadcast wFails [0, 1, 2] wMsg).2) ∧
    ((2, wMsg) ∈ (broadcast wFails [0, 1, 2] wMsg).2) :=
  ⟨(C5_theorem wFails [0, 1, 2] wMsg).1 0 (by decide) (by decide),
   (C5_theorem wFails [0, 1, 2] wMsg).1 2 (by decide) (by decide)⟩

/-- Claim C8: trigger-file mailbox semantics. After every successful batch
read (the file exists and its size exceeds the held offset) the trigger file
is truncated to empty and the offset reset to 0, so handled records are
never replayed; and when the screenshot artifact is absent, no crop and no
generation are attempted, nothing is broadcast, and the file is still
drained. -/
theorem C8_theorem (parse : List Char → Option JValue)
    (crop : JValue → Option (List Char)) (gen : List Char → Bool)
    (content : List Char) (pos : Nat) (shot : Bool)
    (h : content.length > pos) :
    ((pollTrigger parse crop gen true content pos shot).content = [] ∧
     (pollTrigger parse crop gen true content pos shot).lastScreenPos = 0) ∧
    (shot = false →
      (pollTrigger parse crop gen true content pos shot).cropCalls = [] ∧
      (pollTrigger parse crop gen true content pos shot).genCalls = [] ∧
      (pollTrigger parse crop gen true content pos shot).msgs = [] ∧
      (pollTrigger parse crop gen true content pos shot).screenshot = false) := by
  have hc : (true && decide (content.length > pos)) = true := by simp [h]
  unfold pollTrigger
  rw [if_pos hc]
  refine ⟨⟨rfl, rfl⟩, ?_⟩
  intro hs
  subst hs
  rw [trigFold_noShot]
  exact ⟨rfl, rfl, rfl, rfl⟩

/-- Witness for claim C8: scenario 3 of the spec, a trigger record with no
screenshot artifact present. -/
theorem C8_witness :
    ((pollTrigger parseTrig cropNone genFalse true trigLine 0 false).content = [] ∧
     (pollTrigger parseTrig cropNone genFalse true trigLine 0 false).lastScreenPos = 0) ∧
    ((pollTrigger parseTrig cropNone genFalse true trigLine 0 false).cropCalls = [] ∧
     (pollTrigger parseTrig cropNone genFalse true trigLine 0 false).genCalls = [] ∧
     (pollTrigger parseTrig cropNone genFalse true trigLine 0 false).msgs = [] ∧
     (pollTrigger parseTrig cropNone genFalse true trigLine 0 false).screenshot = false) :=
  ⟨(C8_theorem parseTrig cropNone genFalse trigLine 0 false (by decide)).1,
   (C8_theorem parseTrig cropNone genFalse trigLine 0 false (by decide)).2 rfl⟩

/-- Claim C9: asset pipeline success path. For a trigger record that parses
while the screenshot exists: if crop succeeds, the screenshot is deleted
(consumed exactly once, since every later record of the batch then sees it
absent), the generation collaborator is invoked exactly on the cropped
image, and the fixed sprite_sheet_updated notification is broadcast exactly
when generation succeeds; if crop fails, the screenshot is kept and neither
generation nor broadcast happens. Either way the record processing returns
normally. -/
theorem C9_theorem (parse : List Char → Option JValue)
    (crop : JValue → Option (List Char)) (gen : List Char → Bool)
    (acc : TrigAcc) (line : List Char) (screenPos : JValue)
    (hshot : acc.screenshot = true)
    (hline : (pstrip line).isEmpty = false)
    (hparse : parse (pstrip line) = some screenPos) :
    (∀ croppedPath, crop screenPos = some croppedPath →
       (processTriggerLine parse crop gen acc line).screenshot = false ∧
       (processTriggerLine parse crop gen acc line).cropCalls =
         acc.cropCalls ++ [screenPos] ∧
       (processTriggerLine parse crop gen acc line).genCalls =
         acc.genCalls ++ [croppedPath] ∧
       (processTriggerLine parse crop gen acc line).msgs =
         acc.msgs ++ (if gen croppedPath then [notifMsg] else [])) ∧
    (crop screenPos = none →
       (processTriggerLine parse crop gen acc line).screenshot = true ∧
       (processTriggerLine parse crop gen acc line).genCalls = acc.genCalls ∧
       (processTriggerLine parse crop gen acc line).msgs = acc.msgs) := by
  unfold processTriggerLine
  simp only [hline, hparse, hshot, Bool.false_eq_true, if_false, if_true]
  constructor
  · intro cp hcp
    rw [hcp]
    dsimp only
    cases hg : gen cp <;> simp [hg]
  · intro hcp
    rw [hcp]
    exact ⟨rfl, rfl, rfl⟩

/-- Witness for claim C9: scenario 4 of the spec, one trigger record with
the screenshot present, a succeeding crop and a succeeding generation, and
the crop-failure side with a failing crop. -/
theorem C9_witness :
    ((processTriggerLine parseTrig cropSome genTrue ⟨true, [], [], []⟩ trigLine).screenshot = false ∧
     (processTriggerLine parseTrig cropSome genTrue ⟨true, [], [], []⟩ trigLine).cropCalls =
       [] ++ [trigPos] ∧
     (processTriggerLine parseTrig cropSome genTrue ⟨true, [], [], []⟩ trigLine).genCalls =
       [] ++ [facePath] ∧
     (processTriggerLine parseTrig cropSome genTrue ⟨true, [], [], []⟩ trigLine).msgs =
       [] ++ (if genTrue facePath then [notifMsg] else [])) ∧
    ((processTriggerLine parseTrig cropNone genTrue ⟨true, [], [], []⟩ trigLine).screenshot = true ∧
     (processTriggerLine parseTrig cropNone genTrue ⟨true, [], [], []⟩ trigLine).genCalls = [] ∧
     (processTriggerLine parseTrig cropNone genTrue ⟨true, [], [], []⟩ trigLine).msgs = []) :=
  ⟨(C9_theorem parseTrig cropSome genTrue ⟨true, [], [], []⟩ trigLine trigPos
      rfl rfl rfl).1 facePath rfl,
   (C9_theorem parseTrig cropNone genTrue ⟨true, [], [], []⟩ trigLine trigPos
      rfl rfl rfl).2 rfl⟩

/-- Claim C10: validator totality. The exception-tracking translation of
validate_event returns an ok boolean on every input (it never raises, and
being a total Lean function it terminates), it agrees with the pure
translation, a non-mapping input yields false, and a player_update whose
player field is not a mapping yields false. -/
theorem C10_theorem :
    (∀ e : JValue, validate_eventE e = Except.ok (validate_event e)) ∧
    (∀ e : JValue, isDict e = false → validate_event e = false) ∧
    (∀ fs : List (String × JValue), jget fs "type" = JValue.str "player_update" →
      isDict (jget fs "player") = false →
      validate_event (JValue.obj fs) = false) := by
  refine ⟨validate_eventE_ok, ?_, ?_⟩
  · intro e h
    cases e <;> first | rfl | (simp [isDict] at h)
  · intro fs hty hpd
    have hkt : hasKey fs "type" = true := by
      unfold jget at hty
      unfold hasKey
      cases hl : List.lookup "type" fs with
      | none =>
        rw [hl] at hty
        exact absurd hty (fun hh => JValue.noConfusion hh)
      | some v => simp [hl]
    have hvp : validate_player_stats (jget fs "player") = false := by
      cases hp : jget fs "player" <;>
        first | rfl | (rw [hp] at hpd; simp [isDict] at hpd)
    simp only [validate_event, hkt]
    cases hts : (hasKey fs "timestamp" && isNum (jget fs "timestamp"))
    · simp
    · rw [hty]
      simp [hvp]

/-- Witness for claim C10: a non-mapping input and a player_update with a
string player field. -/
theorem C10_witness :
    validate_eventE (JValue.int 5) = Except.ok (validate_event (JValue.int 5)) ∧
    validate_event (JValue.int 5) = false ∧
    validate_event (JValue.obj [("type", JValue.str "player_update"),
      ("timestamp", JValue.int 1), ("player", JValue.str "zombie")]) = false :=
  ⟨C10_theorem.1 (JValue.int 5),
   C10_theorem.2.1 (JValue.int 5) rfl,
   C10_theorem.2.2 [("type", JValue.str "player_update"),
     ("timestamp", JValue.int 1), ("player", JValue.str "zombie")] rfl rfl⟩

/-- Claim C2: every payload a cycle of the watch loop hands to broadcast
either is a line whose parse passed validate_event or is the synthesized
sprite_sheet_updated notification, so an invalid or unparseable line is
never broadcast and clients never see error payloads; a valid line is
broadcast whether or not other lines of its batch fail; and after a batch
is consumed, newly appended content forms the next batch and is processed
in full, so a valid line of a later batch is still broadcast. -/
theorem C2_theorem :
    (∀ (parse : List Char → Option JValue) (crop : JValue → Option (List Char))
      (gen : List Char → Bool) (w : World) (s : DState) (m : List Char),
      m ∈ (stepDaemon parse crop gen w s).msgs →
        (∃ ev, parse m = some ev ∧ validate_event ev = true) ∨ m = notifMsg) ∧
    (∀ (parse : List Char → Option JValue) (lines : List (List Char))
      (line out : List Char), line ∈ lines → processLine parse line = some out →
        out ∈ processLines parse lines) ∧
    (∀ (parse : List Char → Option JValue) (c c2 : List Char), c2 ≠ [] →
      (pollEvents parse (c ++ c2) c.length).2 =
        processLines parse (splitLines c2)) := by
  refine ⟨?_, ?_, ?_⟩
  · intro parse crop gen w s m hm
    unfold stepDaemon at hm
    dsimp only at hm
    rcases List.mem_append.mp hm with he | ht
    · unfold pollEvents at he
      by_cases hc : w.eventsContent.length > s.lastPosition
      · rw [if_pos hc] at he
        dsimp only at he
        unfold processLines at he
        obtain ⟨line, _, hsome⟩ := List.mem_filterMap.mp he
        exact Or.inl (processLine_some parse line m hsome)
      · rw [if_neg hc] at he
        simp at he
    · exact Or.inr (pollTrigger_msgs parse crop gen w.triggerThere
        w.triggerContent s.lastScreenPos w.screenshot m ht)
  · intro parse lines line out hmem hsome
    unfold processLines
    exact List.mem_filterMap.mpr ⟨line, hmem, hsome⟩
  · intro parse c c2 h
    have hl : (c ++ c2).length > c.length := by
      rw [List.length_append]
      have := List.length_pos.mpr h
      omega
    unfold pollEvents
    rw [if_pos hl]
    dsimp only
    rw [List.drop_left]

/-- Witness for claim C2: the valid xp_gain line of scenario 1 is broadcast
by a cycle, survives an unparseable sibling in its batch, and is still
broadcast when appended after already consumed content. -/
theorem C2_witness :
    ((∃ ev, parseXp xpLine = some ev ∧ validate_event ev = true) ∨
      xpLine = notifMsg) ∧
    xpLine ∈ processLines parseXp [String.toList "junk", xpLine] ∧
    (pollEvents parseXp (String.toList "old\n" ++ xpLine)
      (String.toList "old\n").length).2 = processLines parseXp (splitLines xpLine) :=
  ⟨C2_theorem.1 parseXp cropNone genFalse ⟨xpLine, false, [], false⟩
     DState.initial xpLine (by decide),
   C2_theorem.2.1 parseXp [String.toList "junk", xpLine] xpLine xpLine
     (by decide) (by decide),
   C2_theorem.2.2 parseXp (String.toList "old\n") xpLine (by decide)⟩
